import Mathlib

/-!
Shallow embedding of `soopervisor/commons/docker.py`.

The module drives a docker build pipeline: for each dependency group
(task pattern ↦ lock file) it packages the project source, builds a
docker image, optionally tests it, and optionally tags/pushes it to a
configured repository, with two early-stop checkpoints (`until="build"`,
`until="push"`).

External collaborators (the `Commander` instance `e`, the `source` and
`dependencies` modules, `tarfile`, the filesystem) are modelled by an
explicit `Host` record of observations and by an event trace recording
every call the module makes on the commander.
-/

namespace SoopervisorDocker

/-- A dependency declaration file together with its lock file, as returned
by `dependencies.get_task_dependency_files` (one entry per task pattern). -/
structure DepPaths where
  decl : String
  lock : String
deriving Repr, DecidableEq

/-- The configuration object `cfg` as consumed by `build`:
`cfg.repository` (optional string), `cfg.include`, `cfg.exclude`
(optional lists modelled with `[]` for Python falsy values). -/
structure Cfg where
  repository : Option String
  includeList : List String
  exclude : List String
deriving Repr, DecidableEq

/-- Host-side observations consumed by `build`: existence of the
Dockerfile and `setup.py`, the package name/version resolved by
`source.find_package_name_and_version`, whether
`dependencies.check_lock_files_exist` succeeds, the two scans performed
by `dependencies.get_task_dependency_files` (requirements-style and
environment-style), and plain file existence. -/
structure Host where
  dockerfileExists : Bool
  setupPyExists : Bool
  pkgName : String
  version : String
  lockFilesOk : Bool
  reqFiles : List (String × DepPaths)
  envFiles : List (String × DepPaths)
  fileExists : String → Bool

/-- One call made on the commander / the `source` module, in order. -/
inductive Ev where
  | cp (path : String)
  | rm (paths : List String)
  | run (args : List String)
  | cd (path : String)
  | info (msg : String)
  | sourceCopy (src dst : String) (includeArg excludeArg : List String)
      (ignoreGit : Bool) (renameFiles : List (String × String))
  | compressDir (src dst : String)
deriving Repr, DecidableEq

/-- The fatal exceptions `build` can raise. -/
inductive BuildErr where
  | missingDockerfile (envName : String)
  | configurationError (msg : String)
  | notImplementedError (msg : String)
  | missingLockFiles
deriving Repr, DecidableEq

/-- Overall result of a `build` call: a raised exception, a
`CommanderStop` (deliberate halt, not an error), or normal return of
`(pkg_name, task_pattern_image_map)`. -/
inductive Outcome where
  | error (e : BuildErr)
  | stop (msg : String)
  | done (pkgName : String) (taskPatternImageMap : List (String × String))
deriving Repr, DecidableEq

/-- Result of one loop iteration of `build`: exception, `CommanderStop`,
or the `image_target` recorded into the map. -/
inductive StepRes where
  | err (e : BuildErr)
  | halt (msg : String)
  | ok (imageTarget : String)
deriving Repr, DecidableEq

/-- `_validate_repository`: raises `ConfigurationError` iff the
repository still holds the placeholder value. -/
def validate_repository (repository : Option String) : Option BuildErr :=
  if repository = some "your-repository/name" then
    some (BuildErr.configurationError
      "Invalid repository \x27your-repository/name\x27 in soopervisor.yaml, please add a valid value.")
  else none

/-- Python truthiness of `cfg.repository` (`None` and `""` are falsy). -/
def truthyRepo : Option String → Bool
  | none => false
  | some s => !s.data.isEmpty

/-- `get_dependencies`: takes the requirements-style mapping when
non-empty, otherwise falls back to the environment-style mapping, and
projects out the lock paths. -/
def get_dependencies (h : Host) :
    List (String × DepPaths) × List (String × String) :=
  let requirement_files := h.reqFiles
  let dependency_files :=
    if requirement_files.isEmpty then h.envFiles else requirement_files
  (dependency_files, dependency_files.map fun tp => (tp.1, tp.2.lock))

/-- Python `str.replace` for a single-character pattern: replace every
occurrence of `pat` in `s` by `rep` (left to right). -/
def replaceChar (pat : Char) (rep : String) (s : String) : String :=
  String.mk (go s.data)
where
  go : List Char → List Char
    | [] => []
    | c :: cs => if c = pat then rep.data ++ go cs else c :: go cs

/-- Python's `c in s` membership test for a single character. -/
def containsChar (s : String) (c : Char) : Bool :=
  s.data.contains c

/-- Python's `sub in s` substring test. -/
def hasSubstr (pat : String) (s : String) : Bool :=
  go pat.data s.data
where
  go (p : List Char) : List Char → Bool
    | [] => p.isEmpty
    | c :: cs => p.isPrefixOf (c :: cs) || go p cs

/-- `modify_wildcard`: replace `*` by the literal `ploomber`. -/
def modify_wildcard (entity : String) : String :=
  replaceChar '*' "ploomber" entity

/-- Filesystem effects of `cp_ploomber_home`. -/
inductive HomeAction where
  | addToArchive (archivePath srcPath arcname : String)
  | mkdir (path : String)
deriving Repr, DecidableEq

/-- `cp_ploomber_home`: when `{home}/stats` exists, archive it into
`dist/{pkg_name}.tar.gz` under arcname `ploomber/stats`; otherwise do
nothing at all. -/
def cp_ploomber_home (homeDir : String) (statsExists : Bool)
    (pkg_name : String) : List HomeAction :=
  if statsExists then
    [HomeAction.addToArchive ("dist/" ++ pkg_name ++ ".tar.gz")
      (homeDir ++ "/stats") "ploomber/stats"]
  else []

/-- The message of the `NotImplementedError` raised when several task
patterns coexist with `setup.py`. -/
def multiLockMsg : String :=
  "Multiple requirements.*.lock.txt or environment.*.lock.yml files found along with setup.py file. Please have either of the two in the project root."

/-- The `CommanderStop` message for `until="build"`. -/
def buildStopMsg : String :=
  "Done. Run \"docker images\" to see your image."

/-- The `CommanderStop` message for `until="push"`. -/
def pushStopMsg : String := "Done. Image pushed to repository."

/-- The `exclude` argument handed to `source.copy`
(lines 130–134 of `docker.py`). -/
def computeExclude (cfgExclude other_lock_files : List String) :
    List String :=
  if !cfgExclude.isEmpty && !other_lock_files.isEmpty then
    cfgExclude ++ other_lock_files
  else if cfgExclude.isEmpty && !other_lock_files.isEmpty then
    other_lock_files
  else cfgExclude

/-- The capability-probe command string (`test_cmd` in `build`). -/
def testCmd (entry_point : String) : String :=
  "from ploomber.spec import DAGSpec; print(\"File\" in DAGSpec(\"" ++
    entry_point ++ "\").to_dag().clients)"

/-- The remote tag computation (lines 200–203 of `build`): append
`:{version}-{pattern}` only when the repository carries no `:`. -/
def remoteTag (repository version task : String) : String :=
  if !(containsChar repository ':') then
    repository ++ ":" ++ version ++ "-" ++ modify_wildcard task
  else repository

/-- Python `repr` of the `task_pattern_image_map` dict, used in the
final `e.info` call. -/
def pyDictRepr (m : List (String × String)) : String :=
  "\x7b" ++ String.intercalate ", "
    (m.map fun kv => "\x27" ++ kv.1 ++ "\x27: \x27" ++ kv.2 ++ "\x27") ++ "\x7d"

/-- The deterministic local image tag `image_local` of one loop
iteration: `{pkg_name}:{version}-{task}` with `*` rewritten (line 153 of
`docker.py`). -/
def imageLocal (h : Host) (task : String) : String :=
  h.pkgName ++ ":" ++ h.version ++ "-" ++ replaceChar '*' "ploomber" task

/-- The part of a loop iteration after packaging: copy `dist`, enter the
environment directory, docker build, optional tests, `until="build"`
checkpoint, optional tag/push, `until="push"` checkpoint
(lines 149–219 of `docker.py`). -/
def buildStepRest (h : Host) (cfg : Cfg) (env_name : String)
    (untilArg : Option String) (entry_point : String) (skip_tests : Bool)
    (task : String) (evs1 : List Ev) : List Ev × StepRes :=
  let evs2 := evs1 ++ [Ev.cp "dist", Ev.cd env_name]
  let image_local := imageLocal h task
  let evs3 := evs2 ++ [Ev.run ["docker", "build", ".", "--tag", image_local]]
  let evs4 :=
    if !skip_tests then
      evs3 ++
        [Ev.run ["docker", "run", image_local, "ploomber", "status",
           "--entry-point", entry_point],
         Ev.run ["docker", "run", image_local, "python", "-c",
           testCmd entry_point]]
    else evs3
  if untilArg = some "build" then (evs4, StepRes.halt buildStopMsg)
  else
    let tagged : List Ev × String :=
      if truthyRepo cfg.repository then
        let image_target :=
          remoteTag (cfg.repository.getD "") h.version task
        (evs4 ++
          [Ev.run ["docker", "tag", image_local, image_target],
           Ev.run ["docker", "push", image_target]], image_target)
      else (evs4, image_local)
    if untilArg = some "push" then (tagged.1, StepRes.halt pushStopMsg)
    else
      (tagged.1 ++ [Ev.rm ["dist"], Ev.cd ".."], StepRes.ok tagged.2)

/-- One iteration of the `for task, lock_file in lock_paths.items()` loop
in `build` (lines 98–219 of `docker.py`), returning the trace of
commander calls and how the iteration ended. -/
def buildStep (h : Host) (cfg : Cfg) (env_name : String)
    (untilArg : Option String) (entry_point : String) (skip_tests : Bool)
    (ignore_git : Bool) (dependency_files : List (String × DepPaths))
    (lock_paths : List (String × String)) (task lock_file : String) :
    List Ev × StepRes :=
  let evs0 := if h.fileExists lock_file then [Ev.cp lock_file] else []
  if h.setupPyExists then
    if dependency_files.any (fun tp => tp.1 ≠ "default") then
      (evs0, StepRes.err (BuildErr.notImplementedError multiLockMsg))
    else
      let evs1 := evs0 ++
        [Ev.rm ["dist", "build",
           "src/" ++ h.pkgName ++ "/" ++ h.pkgName ++ ".egg-info"],
         Ev.run ["python", "-m", "build", "--sdist"]]
      buildStepRest h cfg env_name untilArg entry_point skip_tests task evs1
  else
    let other_lock_files :=
      (lock_paths.map fun tl => tl.2).filter fun file => file ≠ lock_file
    let exclude := computeExclude cfg.exclude other_lock_files
    let rename_files :=
      if hasSubstr "requirements" lock_file then
        [(lock_file, "requirements.lock.txt")]
      else [(lock_file, "environment.lock.yml")]
    let evs1 := evs0 ++
      [Ev.rm ["dist"], Ev.info "Packaging code",
       Ev.sourceCopy "." ("dist/" ++ h.pkgName) cfg.includeList exclude
         ignore_git rename_files,
       Ev.compressDir ("dist/" ++ h.pkgName)
         ("dist/" ++ h.pkgName ++ ".tar.gz")]
    buildStepRest h cfg env_name untilArg entry_point skip_tests task evs1

/-- The loop of `build` over `lock_paths.items()`, accumulating the
`task_pattern_image_map`. -/
def buildLoop (h : Host) (cfg : Cfg) (env_name : String)
    (untilArg : Option String) (entry_point : String) (skip_tests : Bool)
    (ignore_git : Bool) (dependency_files : List (String × DepPaths))
    (lock_paths : List (String × String)) :
    List (String × String) → List (String × String) → List Ev × Outcome
  | [], acc =>
    ([Ev.info ("Images generated : " ++ pyDictRepr acc)],
     Outcome.done h.pkgName acc)
  | (task, lock_file) :: rest, acc =>
    let step := buildStep h cfg env_name untilArg entry_point skip_tests
      ignore_git dependency_files lock_paths task lock_file
    match step.2 with
    | StepRes.err e => (step.1, Outcome.error e)
    | StepRes.halt m => (step.1, Outcome.stop m)
    | StepRes.ok image_target =>
      let next := buildLoop h cfg env_name untilArg entry_point skip_tests
        ignore_git dependency_files lock_paths rest
        (acc ++ [(task, image_target)])
      (step.1 ++ next.1, next.2)

/-- `build` (lines 54–222 of `docker.py`): preliminary checks, dependency
discovery, then one image per task pattern. -/
def build (h : Host) (cfg : Cfg) (env_name : String)
    (untilArg : Option String) (entry_point : String)
    (skip_tests : Bool := false) (ignore_git : Bool := false) :
    List Ev × Outcome :=
  if !h.dockerfileExists then
    ([], Outcome.error (BuildErr.missingDockerfile env_name))
  else
    match validate_repository cfg.repository with
    | some e => ([], Outcome.error e)
    | none =>
      if !h.lockFilesOk then ([], Outcome.error BuildErr.missingLockFiles)
      else
        let deps := get_dependencies h
        buildLoop h cfg env_name untilArg entry_point skip_tests ignore_git
          deps.1 deps.2 deps.2 []

/-- The argument list of an `e.run` event, `none` for other events. -/
def runArgOf : Ev → Option (List String)
  | Ev.run args => some args
  | _ => none

/-- The positional argument lists of the `e.run` calls of a trace. -/
def runArgs (evs : List Ev) : List (List String) :=
  evs.filterMap runArgOf

/-- Whether an event is a `docker tag` or `docker push` invocation. -/
def isTagOrPush : Ev → Bool
  | Ev.run (cmd :: sub :: _) =>
      cmd == "docker" && (sub == "tag" || sub == "push")
  | _ => false

/-- Whether a trace holds a `docker tag` or `docker push` invocation. -/
def hasTagOrPush (evs : List Ev) : Bool :=
  evs.any isTagOrPush

/-- Whether an outcome is the `CommanderStop` pipeline-halt signal. -/
def isStop : Outcome → Bool
  | Outcome.stop _ => true
  | _ => false

/-- Whether an outcome is a raised `ConfigurationError`. -/
def isConfigurationError : Outcome → Bool
  | Outcome.error (BuildErr.configurationError _) => true
  | _ => false

/-- Package name and map keys of a normal return, `none` otherwise. -/
def outcomeKeys : Outcome → Option (String × List String)
  | Outcome.done pkg m => some (pkg, m.map Prod.fst)
  | _ => none

/-- The `docker build` invocation of one iteration. -/
def buildCmd (h : Host) (task : String) : List String :=
  ["docker", "build", ".", "--tag", imageLocal h task]

/-- The status-check `docker run` invocation of one iteration. -/
def statusCmd (h : Host) (task entry_point : String) : List String :=
  ["docker", "run", imageLocal h task, "ploomber", "status",
   "--entry-point", entry_point]

/-- The capability-probe `docker run` invocation of one iteration. -/
def probeCmd (h : Host) (task entry_point : String) : List String :=
  ["docker", "run", imageLocal h task, "python", "-c", testCmd entry_point]

/-- The `image_target` of one iteration (lines 199–212). -/
def imageTarget (h : Host) (cfg : Cfg) (task : String) : String :=
  if truthyRepo cfg.repository then
    remoteTag (cfg.repository.getD "") h.version task
  else imageLocal h task

/-- The `e.cp(lock_file)` trace at the top of an iteration. -/
def cpLockEvs (h : Host) (lock_file : String) : List Ev :=
  if h.fileExists lock_file then [Ev.cp lock_file] else []

/-- The `rename_files` argument handed to `source.copy` (lines 136–137). -/
def renameFilesFor (lock_file : String) : List (String × String) :=
  if hasSubstr "requirements" lock_file then
    [(lock_file, "requirements.lock.txt")]
  else [(lock_file, "environment.lock.yml")]

/-- A non-package sample project with a single default dependency group
(mirrors the repository's `tmp_sample_project` fixture). -/
def sampleHost : Host :=
  { dockerfileExists := true, setupPyExists := false,
    pkgName := "sample_project", version := "latest", lockFilesOk := true,
    reqFiles := [("default",
      DepPaths.mk "requirements.txt" "requirements.lock.txt")],
    envFiles := [], fileExists := fun _ => true }

/-- A packaged project (`setup.py` present) with a single default group. -/
def packagedHost : Host :=
  { dockerfileExists := true, setupPyExists := true,
    pkgName := "my_project", version := "1.2", lockFilesOk := true,
    reqFiles := [("default",
      DepPaths.mk "requirements.txt" "requirements.lock.txt")],
    envFiles := [], fileExists := fun _ => true }

/-- A packaged project carrying an extra task-pattern lock file. -/
def multiLockHost : Host :=
  { dockerfileExists := true, setupPyExists := true,
    pkgName := "my_project", version := "1.2", lockFilesOk := true,
    reqFiles := [("default",
      DepPaths.mk "requirements.txt" "requirements.lock.txt"),
     ("fit-*",
      DepPaths.mk "requirements.fit-*.txt" "requirements.fit-*.lock.txt")],
    envFiles := [], fileExists := fun _ => true }

/-- A non-package project where both requirements-style and
environment-style dependency files are present simultaneously. -/
def bothKindsHost : Host :=
  { dockerfileExists := true, setupPyExists := false,
    pkgName := "sample_project", version := "latest", lockFilesOk := true,
    reqFiles := [("default",
      DepPaths.mk "requirements.txt" "requirements.lock.txt")],
    envFiles := [("default",
      DepPaths.mk "environment.yml" "environment.lock.yml")],
    fileExists := fun _ => true }

/-- A configuration with no repository configured. -/
def emptyCfg : Cfg := { repository := none, includeList := [], exclude := [] }

/-- A configuration with a remote repository carrying no explicit tag. -/
def repoCfg : Cfg :=
  { repository := some "repo.example.com/project", includeList := [],
    exclude := [] }

/-- A configuration still holding the placeholder repository value. -/
def placeholderCfg : Cfg :=
  { repository := some "your-repository/name", includeList := [],
    exclude := [] }

lemma buildStepRest_events (h : Host) (cfg : Cfg) (env entry task : String)
    (u : Option String) (skip : Bool) (evs1 : List Ev) :
    (buildStepRest h cfg env u entry skip task evs1).1 =
      (evs1 ++ [Ev.cp "dist", Ev.cd env, Ev.run (buildCmd h task)] ++
        (if skip then []
         else [Ev.run (statusCmd h task entry),
               Ev.run (probeCmd h task entry)])) ++
      (if u = some "build" then []
       else
        (if truthyRepo cfg.repository then
          [Ev.run ["docker", "tag", imageLocal h task,
             remoteTag (cfg.repository.getD "") h.version task],
           Ev.run ["docker", "push",
             remoteTag (cfg.repository.getD "") h.version task]]
         else []) ++
        (if u = some "push" then [] else [Ev.rm ["dist"], Ev.cd ".."])) := by
  cases skip <;>
    simp only [buildStepRest, buildCmd, statusCmd, probeCmd, Bool.not_true,
      Bool.not_false, if_true, if_false, Bool.false_eq_true, ite_false,
      ite_true] <;>
  split_ifs <;> simp_all [List.append_assoc]

lemma buildStepRest_res (h : Host) (cfg : Cfg) (env entry task : String)
    (u : Option String) (skip : Bool) (evs1 : List Ev) :
    (buildStepRest h cfg env u entry skip task evs1).2 =
      if u = some "build" then StepRes.halt buildStopMsg
      else if u = some "push" then StepRes.halt pushStopMsg
      else StepRes.ok (imageTarget h cfg task) := by
  cases skip <;>
    simp only [buildStepRest, imageTarget] <;>
  split_ifs <;> simp_all

lemma buildStep_multi_err {h : Host} {cfg : Cfg} {env entry task lock : String}
    {u : Option String} {skip ig : Bool} {df : List (String × DepPaths)}
    {lp : List (String × String)} (hs : h.setupPyExists = true)
    (hx : df.any (fun tp => tp.1 ≠ "default") = true) :
    buildStep h cfg env u entry skip ig df lp task lock =
      (cpLockEvs h lock,
       StepRes.err (BuildErr.notImplementedError multiLockMsg)) := by
  simp only [buildStep, cpLockEvs, hs, hx, reduceIte]

lemma buildStep_pkg {h : Host} {cfg : Cfg} {env entry task lock : String}
    {u : Option String} {skip ig : Bool} {df : List (String × DepPaths)}
    {lp : List (String × String)} (hs : h.setupPyExists = true)
    (hx : df.any (fun tp => tp.1 ≠ "default") = false) :
    buildStep h cfg env u entry skip ig df lp task lock =
      buildStepRest h cfg env u entry skip task
        (cpLockEvs h lock ++
         [Ev.rm ["dist", "build",
            "src/" ++ h.pkgName ++ "/" ++ h.pkgName ++ ".egg-info"],
          Ev.run ["python", "-m", "build", "--sdist"]]) := by
  simp only [buildStep, cpLockEvs, hs, hx, reduceIte, Bool.false_eq_true]

lemma buildStep_nonpkg {h : Host} {cfg : Cfg} {env entry task lock : String}
    {u : Option String} {skip ig : Bool} {df : List (String × DepPaths)}
    {lp : List (String × String)} (hs : h.setupPyExists = false) :
    buildStep h cfg env u entry skip ig df lp task lock =
      buildStepRest h cfg env u entry skip task
        (cpLockEvs h lock ++
         [Ev.rm ["dist"], Ev.info "Packaging code",
          Ev.sourceCopy "." ("dist/" ++ h.pkgName) cfg.includeList
            (computeExclude cfg.exclude
              ((lp.map fun tl => tl.2).filter fun file => file ≠ lock))
            ig (renameFilesFor lock),
          Ev.compressDir ("dist/" ++ h.pkgName)
            ("dist/" ++ h.pkgName ++ ".tar.gz")]) := by
  simp [buildStep, cpLockEvs, renameFilesFor, hs]

lemma buildLoop_cons_err {h : Host} {cfg : Cfg} {env entry task lock : String}
    {u : Option String} {skip ig : Bool} {df : List (String × DepPaths)}
    {lp rest acc : List (String × String)} {e : BuildErr}
    (hstep : (buildStep h cfg env u entry skip ig df lp task lock).2 =
      StepRes.err e) :
    buildLoop h cfg env u entry skip ig df lp ((task, lock) :: rest) acc =
      ((buildStep h cfg env u entry skip ig df lp task lock).1,
       Outcome.error e) := by
  simp only [buildLoop]
  rw [hstep]

lemma buildLoop_cons_halt {h : Host} {cfg : Cfg} {env entry task lock : String}
    {u : Option String} {skip ig : Bool} {df : List (String × DepPaths)}
    {lp rest acc : List (String × String)} {m : String}
    (hstep : (buildStep h cfg env u entry skip ig df lp task lock).2 =
      StepRes.halt m) :
    buildLoop h cfg env u entry skip ig df lp ((task, lock) :: rest) acc =
      ((buildStep h cfg env u entry skip ig df lp task lock).1,
       Outcome.stop m) := by
  simp only [buildLoop]
  rw [hstep]

lemma buildLoop_cons_ok {h : Host} {cfg : Cfg} {env entry task lock : String}
    {u : Option String} {skip ig : Bool} {df : List (String × DepPaths)}
    {lp rest acc : List (String × String)} {t : String}
    (hstep : (buildStep h cfg env u entry skip ig df lp task lock).2 =
      StepRes.ok t) :
    buildLoop h cfg env u entry skip ig df lp ((task, lock) :: rest) acc =
      ((buildStep h cfg env u entry skip ig df lp task lock).1 ++
        (buildLoop h cfg env u entry skip ig df lp rest
          (acc ++ [(task, t)])).1,
       (buildLoop h cfg env u entry skip ig df lp rest
          (acc ++ [(task, t)])).2) := by
  simp only [buildLoop]
  rw [hstep]

lemma validate_repository_ne (repo : Option String)
    (hrep : repo ≠ some "your-repository/name") :
    validate_repository repo = none := by
  simp [validate_repository, hrep]

lemma build_eq_loop (h : Host) (cfg : Cfg) (env entry : String)
    (u : Option String) (skip ig : Bool)
    (hdf : h.dockerfileExists = true)
    (hrep : cfg.repository ≠ some "your-repository/name")
    (hlock : h.lockFilesOk = true) :
    build h cfg env u entry skip ig =
      buildLoop h cfg env u entry skip ig (get_dependencies h).1
        (get_dependencies h).2 (get_dependencies h).2 [] := by
  simp [build, hdf, hlock, validate_repository_ne cfg.repository hrep]

lemma isTagOrPush_cp (p : String) : isTagOrPush (Ev.cp p) = false := rfl

lemma isTagOrPush_run_docker_build (rest : List String) :
    isTagOrPush (Ev.run ("docker" :: "build" :: rest)) = false := by
  simp [isTagOrPush]

lemma isTagOrPush_run_docker_run (rest : List String) :
    isTagOrPush (Ev.run ("docker" :: "run" :: rest)) = false := by
  simp [isTagOrPush]

lemma isTagOrPush_run_python (rest : List String) :
    isTagOrPush (Ev.run ("python" :: "-m" :: rest)) = false := by
  simp [isTagOrPush]

lemma hasTagOrPush_append (a b : List Ev) :
    hasTagOrPush (a ++ b) = (hasTagOrPush a || hasTagOrPush b) := by
  simp [hasTagOrPush]

lemma hasTagOrPush_cpLockEvs (h : Host) (lock : String) :
    hasTagOrPush (cpLockEvs h lock) = false := by
  unfold cpLockEvs
  split_ifs <;> simp [hasTagOrPush, isTagOrPush]

lemma runArgs_append (a b : List Ev) :
    runArgs (a ++ b) = runArgs a ++ runArgs b := by
  simp [runArgs]

lemma runArgs_cpLockEvs (h : Host) (lock : String) :
    runArgs (cpLockEvs h lock) = [] := by
  unfold cpLockEvs
  split_ifs <;> simp [runArgs, runArgOf]

lemma buildStep_ne_halt {h : Host} {cfg : Cfg} {env entry task lock : String}
    {u : Option String} {skip ig : Bool} {df : List (String × DepPaths)}
    {lp : List (String × String)}
    (hb : u ≠ some "build") (hp : u ≠ some "push") (m : String) :
    (buildStep h cfg env u entry skip ig df lp task lock).2 ≠
      StepRes.halt m := by
  by_cases hs : h.setupPyExists = true
  · by_cases hx : (df.any fun tp => tp.1 ≠ "default") = true
    · rw [buildStep_multi_err hs hx]
      simp
    · rw [buildStep_pkg hs (by simpa using hx), buildStepRest_res]
      simp [hb, hp]
  · rw [buildStep_nonpkg (by simpa using hs), buildStepRest_res]
    simp [hb, hp]

lemma buildStep_ok {h : Host} {cfg : Cfg} {env entry task lock : String}
    {u : Option String} {skip ig : Bool} {df : List (String × DepPaths)}
    {lp : List (String × String)}
    (hb : u ≠ some "build") (hp : u ≠ some "push")
    (hset : h.setupPyExists = true →
      (df.any fun tp => tp.1 ≠ "default") = false) :
    (buildStep h cfg env u entry skip ig df lp task lock).2 =
      StepRes.ok (imageTarget h cfg task) := by
  by_cases hs : h.setupPyExists = true
  · rw [buildStep_pkg hs (hset hs), buildStepRest_res]
    simp [hb, hp]
  · rw [buildStep_nonpkg (by simpa using hs), buildStepRest_res]
    simp [hb, hp]

lemma buildLoop_no_stop {h : Host} {cfg : Cfg} {env entry : String}
    {u : Option String} {skip ig : Bool} {df : List (String × DepPaths)}
    {lp : List (String × String)}
    (hb : u ≠ some "build") (hp : u ≠ some "push") :
    ∀ (remaining acc : List (String × String)),
      isStop (buildLoop h cfg env u entry skip ig df lp remaining acc).2 =
        false := by
  intro remaining
  induction remaining with
  | nil => intro acc; simp [buildLoop, isStop]
  | cons tl rest ih =>
    intro acc
    obtain ⟨task, lock⟩ := tl
    cases hstep : (buildStep h cfg env u entry skip ig df lp task lock).2 with
    | err e => rw [buildLoop_cons_err hstep]; simp [isStop]
    | halt m => exact absurd hstep (buildStep_ne_halt hb hp m)
    | ok t => rw [buildLoop_cons_ok hstep]; exact ih _

lemma buildLoop_keys {h : Host} {cfg : Cfg} {env entry : String}
    {u : Option String} {skip ig : Bool} {df : List (String × DepPaths)}
    {lp : List (String × String)}
    (hb : u ≠ some "build") (hp : u ≠ some "push")
    (hset : h.setupPyExists = true →
      (df.any fun tp => tp.1 ≠ "default") = false) :
    ∀ (remaining acc : List (String × String)),
      outcomeKeys (buildLoop h cfg env u entry skip ig df lp
          remaining acc).2 =
        some (h.pkgName, acc.map Prod.fst ++ remaining.map Prod.fst) := by
  intro remaining
  induction remaining with
  | nil => intro acc; simp [buildLoop, outcomeKeys]
  | cons tl rest ih =>
    intro acc
    obtain ⟨task, lock⟩ := tl
    rw [buildLoop_cons_ok (buildStep_ok hb hp hset)]
    rw [ih (acc ++ [(task, imageTarget h cfg task)])]
    simp

lemma get_dependencies_snd (h : Host) :
    (get_dependencies h).2 =
      (get_dependencies h).1.map fun tp => (tp.1, tp.2.lock) := rfl

lemma mem_buildStepRest_evs1 {h : Host} {cfg : Cfg} {env entry task : String}
    {u : Option String} {skip : Bool} {evs1 : List Ev} {e : Ev}
    (he : e ∈ evs1) :
    e ∈ (buildStepRest h cfg env u entry skip task evs1).1 := by
  rw [buildStepRest_events]
  simp only [List.mem_append]
  tauto

lemma mem_buildStepRest_buildCmd {h : Host} {cfg : Cfg}
    {env entry task : String} {u : Option String} {skip : Bool}
    {evs1 : List Ev} :
    Ev.run (buildCmd h task) ∈
      (buildStepRest h cfg env u entry skip task evs1).1 := by
  rw [buildStepRest_events]
  simp

lemma mem_buildLoop_head {h : Host} {cfg : Cfg} {env entry task lock : String}
    {u : Option String} {skip ig : Bool} {df : List (String × DepPaths)}
    {lp : List (String × String)} {e : Ev}
    (he : e ∈ (buildStep h cfg env u entry skip ig df lp task lock).1)
    (rest acc : List (String × String)) :
    e ∈ (buildLoop h cfg env u entry skip ig df lp
        ((task, lock) :: rest) acc).1 := by
  cases hstep : (buildStep h cfg env u entry skip ig df lp task lock).2 with
  | err e2 => rw [buildLoop_cons_err hstep]; exact he
  | halt m => rw [buildLoop_cons_halt hstep]; exact he
  | ok t => rw [buildLoop_cons_ok hstep]; exact List.mem_append_left _ he

lemma mem_runArgs {evs : List Ev} {args : List String}
    (hm : Ev.run args ∈ evs) : args ∈ runArgs evs := by
  simp only [runArgs, List.mem_filterMap]
  exact ⟨Ev.run args, hm, rfl⟩

lemma mem_computeExclude_other {cfgEx other : List String} {f : String}
    (hf : f ∈ other) : f ∈ computeExclude cfgEx other := by
  have hne : other.isEmpty = false := by
    cases other with
    | nil => cases hf
    | cons a l => rfl
  unfold computeExclude
  rw [hne]
  cases hc : cfgEx.isEmpty <;> simp [List.mem_append, hf]

lemma mem_computeExclude_cfg {cfgEx other : List String} {g : String}
    (hg : g ∈ cfgEx) : g ∈ computeExclude cfgEx other := by
  have hne : cfgEx.isEmpty = false := by
    cases cfgEx with
    | nil => cases hg
    | cons a l => rfl
  unfold computeExclude
  rw [hne]
  cases hc : other.isEmpty <;> simp [List.mem_append, hg]

lemma hasTagOrPush_core (h : Host) (env task : String) :
    hasTagOrPush [Ev.cp "dist", Ev.cd env, Ev.run (buildCmd h task)] =
      false := by
  simp [hasTagOrPush, isTagOrPush, buildCmd]

lemma hasTagOrPush_tests (h : Host) (task entry : String) :
    hasTagOrPush [Ev.run (statusCmd h task entry),
      Ev.run (probeCmd h task entry)] = false := by
  simp [hasTagOrPush, isTagOrPush, statusCmd, probeCmd]

lemma hasTagOrPush_pkgEvs (h : Host) (lock : String) :
    hasTagOrPush (cpLockEvs h lock ++
      [Ev.rm ["dist", "build",
         "src/" ++ h.pkgName ++ "/" ++ h.pkgName ++ ".egg-info"],
       Ev.run ["python", "-m", "build", "--sdist"]]) = false := by
  rw [hasTagOrPush_append, hasTagOrPush_cpLockEvs]
  simp [hasTagOrPush, isTagOrPush]

lemma hasTagOrPush_nonpkgEvs (h : Host) (cfg : Cfg) (ig : Bool)
    (lp : List (String × String)) (lock : String) :
    hasTagOrPush (cpLockEvs h lock ++
      [Ev.rm ["dist"], Ev.info "Packaging code",
       Ev.sourceCopy "." ("dist/" ++ h.pkgName) cfg.includeList
         (computeExclude cfg.exclude
           ((lp.map fun tl => tl.2).filter fun file => file ≠ lock))
         ig (renameFilesFor lock),
       Ev.compressDir ("dist/" ++ h.pkgName)
         ("dist/" ++ h.pkgName ++ ".tar.gz")]) = false := by
  rw [hasTagOrPush_append, hasTagOrPush_cpLockEvs]
  simp [hasTagOrPush, isTagOrPush]

lemma hasTagOrPush_buildStepRest {h : Host} {cfg : Cfg}
    {env entry task : String} {u : Option String} {skip : Bool}
    {evs1 : List Ev} (htr : truthyRepo cfg.repository = false)
    (h1 : hasTagOrPush evs1 = false) :
    hasTagOrPush (buildStepRest h cfg env u entry skip task evs1).1 =
      false := by
  rw [buildStepRest_events]
  rw [hasTagOrPush_append, hasTagOrPush_append, hasTagOrPush_append, h1, htr]
  rw [hasTagOrPush_core]
  cases skip <;> split_ifs <;>
    simp_all [hasTagOrPush, isTagOrPush, statusCmd, probeCmd]

lemma hasTagOrPush_buildStep {h : Host} {cfg : Cfg}
    {env entry task lock : String} {u : Option String} {skip ig : Bool}
    {df : List (String × DepPaths)} {lp : List (String × String)}
    (htr : truthyRepo cfg.repository = false) :
    hasTagOrPush (buildStep h cfg env u entry skip ig df lp task lock).1 =
      false := by
  by_cases hs : h.setupPyExists = true
  · by_cases hx : (df.any fun tp => tp.1 ≠ "default") = true
    · rw [buildStep_multi_err hs hx]
      exact hasTagOrPush_cpLockEvs h lock
    · rw [buildStep_pkg hs (by simpa using hx)]
      exact hasTagOrPush_buildStepRest htr (hasTagOrPush_pkgEvs h lock)
  · rw [buildStep_nonpkg (by simpa using hs)]
    exact hasTagOrPush_buildStepRest htr
      (hasTagOrPush_nonpkgEvs h cfg ig lp lock)

lemma buildStep_ok_imageTarget {h : Host} {cfg : Cfg}
    {env entry task lock : String} {u : Option String} {skip ig : Bool}
    {df : List (String × DepPaths)} {lp : List (String × String)}
    {s : String}
    (hok : (buildStep h cfg env u entry skip ig df lp task lock).2 =
      StepRes.ok s) : s = imageTarget h cfg task := by
  by_cases hs : h.setupPyExists = true
  · by_cases hx : (df.any fun tp => tp.1 ≠ "default") = true
    · rw [buildStep_multi_err hs hx] at hok
      simp at hok
    · rw [buildStep_pkg hs (by simpa using hx), buildStepRest_res] at hok
      split_ifs at hok
      simp_all
  · rw [buildStep_nonpkg (by simpa using hs), buildStepRest_res] at hok
    split_ifs at hok
    simp_all

lemma imageTarget_no_repo {h : Host} {cfg : Cfg} {task : String}
    (htr : truthyRepo cfg.repository = false) :
    imageTarget h cfg task = imageLocal h task := by
  simp [imageTarget, htr]

lemma buildStep_build_halt {h : Host} {cfg : Cfg}
    {env entry task lock : String} {skip ig : Bool}
    {df : List (String × DepPaths)} {lp : List (String × String)}
    (hset : h.setupPyExists = true →
      (df.any fun tp => tp.1 ≠ "default") = false) :
    (buildStep h cfg env (some "build") entry skip ig df lp task lock).2 =
      StepRes.halt buildStopMsg := by
  by_cases hs : h.setupPyExists = true
  · rw [buildStep_pkg hs (hset hs), buildStepRest_res]
    simp
  · rw [buildStep_nonpkg (by simpa using hs), buildStepRest_res]
    simp

lemma buildStep_push_halt {h : Host} {cfg : Cfg}
    {env entry task lock : String} {skip ig : Bool}
    {df : List (String × DepPaths)} {lp : List (String × String)}
    (hset : h.setupPyExists = true →
      (df.any fun tp => tp.1 ≠ "default") = false) :
    (buildStep h cfg env (some "push") entry skip ig df lp task lock).2 =
      StepRes.halt pushStopMsg := by
  by_cases hs : h.setupPyExists = true
  · rw [buildStep_pkg hs (hset hs), buildStepRest_res]
    simp
  · rw [buildStep_nonpkg (by simpa using hs), buildStepRest_res]
    simp

lemma truthyRepo_false_ne_placeholder {repo : Option String}
    (htr : truthyRepo repo = false) :
    repo ≠ some "your-repository/name" := by
  intro hcontra
  rw [hcontra] at htr
  exact absurd htr (by decide)

/-- C2: the claim says `cp_ploomber_home` creates an empty placeholder
directory at the fixed subpath when the host telemetry/home directory is
absent, so downstream copies never fail; the code, evaluated at such a
host state, performs no filesystem action at all — no placeholder
directory is created (and `build` itself never invokes
`cp_ploomber_home`). This matches the repository's own tests
(`test_cp_ploomber_home_creates_empty_folder_if_home_does_not_exist`)
failing against the code. -/
theorem cp_ploomber_home_absent_home_is_noop :
    cp_ploomber_home "some-missing-directory" false "my_project" = [] := rfl

/-- C6: when the configured repository still equals the placeholder
`your-repository/name` and the Dockerfile exists, `build` raises
`ConfigurationError` with the exact message and an empty trace (before
any external command); any other repository value passes
`_validate_repository`. -/
theorem build_rejects_placeholder_repository (h : Host) (cfg : Cfg)
    (env entry : String) (u : Option String) (skip ig : Bool) :
    (h.dockerfileExists = true →
      cfg.repository = some "your-repository/name" →
      build h cfg env u entry skip ig =
        ([], Outcome.error (BuildErr.configurationError
          "Invalid repository \x27your-repository/name\x27 in soopervisor.yaml, please add a valid value."))) ∧
    (cfg.repository ≠ some "your-repository/name" →
      validate_repository cfg.repository = none) := by
  constructor
  · intro hdf hrep
    simp [build, hdf, hrep, validate_repository]
  · exact validate_repository_ne cfg.repository

/-- C6 witness: the placeholder configuration on a concrete host fails
with the exact `ConfigurationError` and empty trace; a non-placeholder
repository passes the check. -/
theorem build_rejects_placeholder_repository_witness :
    build sampleHost placeholderCfg "some-env" none "pipeline.yaml"
        false false =
      ([], Outcome.error (BuildErr.configurationError
        "Invalid repository \x27your-repository/name\x27 in soopervisor.yaml, please add a valid value.")) ∧
    validate_repository (some "repo.example.com/project") = none :=
  ⟨(build_rejects_placeholder_repository sampleHost placeholderCfg
      "some-env" "pipeline.yaml" none false false).1 rfl rfl,
   (build_rejects_placeholder_repository sampleHost repoCfg
      "some-env" "pipeline.yaml" none false false).2 (by decide)⟩

/-- C7: dependency discovery returns the requirements-style mapping
whenever it is non-empty and falls back to the environment-style mapping
only when no requirements-style pair exists; in particular when both are
present the requirements mapping shadows the environment one. -/
theorem get_dependencies_requirements_first (h : Host) :
    (h.reqFiles ≠ [] →
      get_dependencies h =
        (h.reqFiles, h.reqFiles.map fun tp => (tp.1, tp.2.lock))) ∧
    (h.reqFiles = [] →
      get_dependencies h =
        (h.envFiles, h.envFiles.map fun tp => (tp.1, tp.2.lock))) := by
  constructor <;> intro hr <;> simp [get_dependencies, hr]

/-- C7 witness: on a host where both requirements-style and
environment-style pairs exist, discovery returns the requirements
mapping, shadowing the environment one. -/
theorem get_dependencies_requirements_first_witness :
    get_dependencies bothKindsHost =
      ([("default", DepPaths.mk "requirements.txt" "requirements.lock.txt")],
       [("default", "requirements.lock.txt")]) :=
  (get_dependencies_requirements_first bothKindsHost).1 (by decide)

/-- C4: the remote tag appends `:{version}-{normalized pattern}` exactly
when the configured repository string carries no `:`, and is the
repository verbatim otherwise; when no repository is configured, an
iteration of `build` issues no `docker tag`/`docker push` command and
the recorded published reference is the local tag. -/
theorem remote_tag_computation (r v t : String) (h : Host) (cfg : Cfg)
    (env entry task lock : String) (u : Option String) (skip ig : Bool)
    (df : List (String × DepPaths)) (lp : List (String × String)) :
    (containsChar r ':' = false →
      remoteTag r v t = r ++ ":" ++ v ++ "-" ++ modify_wildcard t) ∧
    (containsChar r ':' = true → remoteTag r v t = r) ∧
    (truthyRepo cfg.repository = false →
      hasTagOrPush
        (buildStep h cfg env u entry skip ig df lp task lock).1 = false ∧
      ∀ s, (buildStep h cfg env u entry skip ig df lp task lock).2 =
          StepRes.ok s → s = imageLocal h task) := by
  refine ⟨?_, ?_, ?_⟩
  · intro hc
    simp [remoteTag, hc]
  · intro hc
    simp [remoteTag, hc]
  · intro htr
    refine ⟨hasTagOrPush_buildStep htr, ?_⟩
    intro s hok
    rw [buildStep_ok_imageTarget hok]
    exact imageTarget_no_repo htr

/-- C4 witness: `repo.example.com/project` (no `:`) on version `latest`
and pattern `default` yields `repo.example.com/project:latest-default`;
a repository already carrying `:` is used verbatim; with no repository
configured the iteration has no tag/push command and publishes the local
tag. -/
theorem remote_tag_computation_witness :
    remoteTag "repo.example.com/project" "latest" "default" =
      "repo.example.com/project:latest-default" ∧
    remoteTag "repo.example.com/project:1.2" "latest" "default" =
      "repo.example.com/project:1.2" ∧
    hasTagOrPush
      (buildStep sampleHost emptyCfg "some-env" none "pipeline.yaml"
        false false [] [] "default" "requirements.lock.txt").1 = false ∧
    "sample_project:latest-default" = imageLocal sampleHost "default" := by
  have h1 := remote_tag_computation "repo.example.com/project" "latest"
    "default" sampleHost emptyCfg "some-env" "pipeline.yaml" "default"
    "requirements.lock.txt" none false false [] []
  have h2 := remote_tag_computation "repo.example.com/project:1.2" "latest"
    "default" sampleHost emptyCfg "some-env" "pipeline.yaml" "default"
    "requirements.lock.txt" none false false [] []
  refine ⟨h1.1 (by decide), h2.2.1 (by decide), (h1.2.2 (by decide)).1, ?_⟩
  exact (h1.2.2 (by decide)).2 "sample_project:latest-default" (by decide)

/-- C5: on a non-package project, the packaging step of an iteration
passes `source.copy` an exclude list that contains every other group's
lock file and every configured exclude entry. -/
theorem build_context_excludes_other_lock_files (h : Host) (cfg : Cfg)
    (env entry task lock : String) (u : Option String) (skip ig : Bool)
    (df : List (String × DepPaths)) (lp : List (String × String))
    (hs : h.setupPyExists = false) :
    Ev.sourceCopy "." ("dist/" ++ h.pkgName) cfg.includeList
        (computeExclude cfg.exclude
          ((lp.map fun tl => tl.2).filter fun file => file ≠ lock))
        ig (renameFilesFor lock) ∈
      (buildStep h cfg env u entry skip ig df lp task lock).1 ∧
    (∀ f ∈ lp.map fun tl => tl.2, f ≠ lock →
      f ∈ computeExclude cfg.exclude
        ((lp.map fun tl => tl.2).filter fun file => file ≠ lock)) ∧
    (∀ g ∈ cfg.exclude,
      g ∈ computeExclude cfg.exclude
        ((lp.map fun tl => tl.2).filter fun file => file ≠ lock)) := by
  refine ⟨?_, ?_, ?_⟩
  · rw [buildStep_nonpkg hs]
    exact mem_buildStepRest_evs1 (by simp)
  · intro f hf hne
    exact mem_computeExclude_other (List.mem_filter.2 ⟨hf, by simp [hne]⟩)
  · intro g hg
    exact mem_computeExclude_cfg hg

/-- C5 witness: with two dependency groups and a configured exclude, the
iteration for `default` passes `source.copy` an exclude list holding the
other group's lock file and the configured entry. -/
theorem build_context_excludes_other_lock_files_witness :
    Ev.sourceCopy "." "dist/sample_project" []
        ["cfg-excluded", "requirements.fit-*.lock.txt"] false
        [("requirements.lock.txt", "requirements.lock.txt")] ∈
      (buildStep sampleHost
        (Cfg.mk none [] ["cfg-excluded"]) "some-env" none "pipeline.yaml"
        false false []
        [("default", "requirements.lock.txt"),
         ("fit-*", "requirements.fit-*.lock.txt")]
        "default" "requirements.lock.txt").1 ∧
    "requirements.fit-*.lock.txt" ∈
      computeExclude ["cfg-excluded"]
        (([("default", "requirements.lock.txt"),
           ("fit-*", "requirements.fit-*.lock.txt")].map
            fun tl => tl.2).filter
          fun file => file ≠ "requirements.lock.txt") ∧
    "cfg-excluded" ∈
      computeExclude ["cfg-excluded"]
        (([("default", "requirements.lock.txt"),
           ("fit-*", "requirements.fit-*.lock.txt")].map
            fun tl => tl.2).filter
          fun file => file ≠ "requirements.lock.txt") := by
  have hw := build_context_excludes_other_lock_files sampleHost
    (Cfg.mk none [] ["cfg-excluded"]) "some-env" "pipeline.yaml" "default"
    "requirements.lock.txt" none false false []
    [("default", "requirements.lock.txt"),
     ("fit-*", "requirements.fit-*.lock.txt")] rfl
  exact ⟨hw.1, hw.2.1 "requirements.fit-*.lock.txt" (by decide) (by decide),
    hw.2.2 "cfg-excluded" (by decide)⟩

/-- C8: for every dependency group, the tag passed to `docker build` is
`{pkg_name}:{version}-{pattern}` with `*` replaced by the literal
`ploomber` (i.e. `modify_wildcard`), and the same normalization produces
the pattern suffix of the remote tag when the configured repository
carries no `:`. -/
theorem local_image_tag_format (h : Host) (cfg : Cfg)
    (env entry task lock : String) (u : Option String) (skip ig : Bool)
    (df : List (String × DepPaths)) (lp : List (String × String))
    (hset : h.setupPyExists = true →
      (df.any fun tp => tp.1 ≠ "default") = false) :
    Ev.run ["docker", "build", ".", "--tag",
        h.pkgName ++ ":" ++ h.version ++ "-" ++ modify_wildcard task] ∈
      (buildStep h cfg env u entry skip ig df lp task lock).1 ∧
    imageLocal h task =
      h.pkgName ++ ":" ++ h.version ++ "-" ++ modify_wildcard task ∧
    (containsChar (cfg.repository.getD "") ':' = false →
      truthyRepo cfg.repository = true →
      imageTarget h cfg task =
        cfg.repository.getD "" ++ ":" ++ h.version ++ "-" ++
          modify_wildcard task) := by
  refine ⟨?_, rfl, ?_⟩
  · by_cases hs : h.setupPyExists = true
    · rw [buildStep_pkg hs (hset hs)]
      exact mem_buildStepRest_buildCmd
    · rw [buildStep_nonpkg (by simpa using hs)]
      exact mem_buildStepRest_buildCmd
  · intro hc htr
    simp [imageTarget, htr, remoteTag, hc]

/-- C8 witness: the `fit-*` pattern at the packaged host produces the
docker build tag `my_project:1.2-fit-ploomber` in the iteration trace,
the local tag matches the normalized format, and a repository without
`:` gets the same normalized suffix. -/
theorem local_image_tag_format_witness :
    Ev.run ["docker", "build", ".", "--tag", "my_project:1.2-fit-ploomber"] ∈
      (buildStep packagedHost repoCfg "some-env" none "pipeline.yaml"
        false false [] [] "fit-*" "requirements.fit-*.lock.txt").1 ∧
    imageLocal packagedHost "fit-*" = "my_project:1.2-fit-ploomber" ∧
    imageTarget packagedHost repoCfg "fit-*" =
      "repo.example.com/project:1.2-fit-ploomber" := by
  have hw := local_image_tag_format packagedHost repoCfg "some-env"
    "pipeline.yaml" "fit-*" "requirements.fit-*.lock.txt" none false false
    [] [] (fun _ => by decide)
  refine ⟨?_, by decide, ?_⟩
  · have := hw.1
    simpa using this
  · have := hw.2.2 (by decide) (by decide)
    simpa using this

/-- C9: when `until="push"` and no repository is configured (falsy), a
`build` that reaches its first iteration still raises the
`CommanderStop` with message `Done. Image pushed to repository.` even
though no `docker tag`/`docker push` was issued, and the iteration's
pattern-to-image mapping is never recorded or returned. -/
theorem until_push_without_repository_still_stops (h : Host) (cfg : Cfg)
    (env entry task lock : String) (skip ig : Bool)
    (rest : List (String × String))
    (hdf : h.dockerfileExists = true)
    (htr : truthyRepo cfg.repository = false)
    (hlock : h.lockFilesOk = true)
    (hne : (get_dependencies h).2 = (task, lock) :: rest)
    (hset : h.setupPyExists = true →
      ((get_dependencies h).1.any fun tp => tp.1 ≠ "default") = false) :
    (build h cfg env (some "push") entry skip ig).2 =
      Outcome.stop pushStopMsg ∧
    hasTagOrPush (build h cfg env (some "push") entry skip ig).1 = false ∧
    outcomeKeys (build h cfg env (some "push") entry skip ig).2 = none := by
  rw [build_eq_loop h cfg env entry (some "push") skip ig hdf
    (truthyRepo_false_ne_placeholder htr) hlock, hne]
  rw [buildLoop_cons_halt (buildStep_push_halt hset)]
  exact ⟨rfl, hasTagOrPush_buildStep htr, rfl⟩

/-- C9 witness: the sample project with no repository and
`until="push"` stops with the push message, never issued a tag/push
command, and returns no mapping. -/
theorem until_push_without_repository_still_stops_witness :
    (build sampleHost emptyCfg "some-env" (some "push") "pipeline.yaml"
        false false).2 = Outcome.stop pushStopMsg ∧
    hasTagOrPush (build sampleHost emptyCfg "some-env" (some "push")
        "pipeline.yaml" false false).1 = false ∧
    outcomeKeys (build sampleHost emptyCfg "some-env" (some "push")
        "pipeline.yaml" false false).2 = none :=
  until_push_without_repository_still_stops sampleHost emptyCfg "some-env"
    "pipeline.yaml" "default" "requirements.lock.txt" false false []
    rfl rfl rfl (by decide) (fun hcontra => by cases hcontra)

/-- C10: for every `until` other than the exact strings `"build"` and
`"push"` (including `None` and misspellings), `build` never raises the
pipeline-halt signal, and when the preliminary checks pass and the
groups do not clash with `setup.py`, it completes every dependency
group and returns the package name together with the full
pattern-to-image mapping (one entry per task pattern, in order). -/
theorem build_completes_without_checkpoint (h : Host) (cfg : Cfg)
    (env entry : String) (u : Option String) (skip ig : Bool)
    (hb : u ≠ some "build") (hp : u ≠ some "push") :
    isStop (build h cfg env u entry skip ig).2 = false ∧
    (h.dockerfileExists = true →
      cfg.repository ≠ some "your-repository/name" →
      h.lockFilesOk = true →
      (h.setupPyExists = true →
        ((get_dependencies h).1.any fun tp => tp.1 ≠ "default") = false) →
      outcomeKeys (build h cfg env u entry skip ig).2 =
        some (h.pkgName, (get_dependencies h).2.map Prod.fst)) := by
  constructor
  · unfold build
    split
    · rfl
    · split
      · rfl
      · split
        · rfl
        · exact buildLoop_no_stop hb hp _ _
  · intro hdf hrep hlock hset
    rw [build_eq_loop h cfg env entry u skip ig hdf hrep hlock]
    rw [buildLoop_keys hb hp hset (get_dependencies h).2 []]
    simp

/-- C10 witness: with `until` a misspelling (`"biuld"`), the sample
project run does not stop and returns the package name and the mapping
for the single `default` pattern. -/
theorem build_completes_without_checkpoint_witness :
    isStop (build sampleHost repoCfg "some-env" (some "biuld")
        "pipeline.yaml" false false).2 = false ∧
    outcomeKeys (build sampleHost repoCfg "some-env" (some "biuld")
        "pipeline.yaml" false false).2 =
      some ("sample_project", ["default"]) := by
  have hw := build_completes_without_checkpoint sampleHost repoCfg
    "some-env" "pipeline.yaml" (some "biuld") false false
    (by decide) (by decide)
  exact ⟨hw.1, hw.2 rfl (by decide) rfl (fun hcontra => by cases hcontra)⟩

/-- C3 counterexample: on a packaged project (`setup.py` present, one
`default` group) with `until="build"` and `skip_tests=False`, the run
issues four external commands, not exactly the three
`[docker build, status-check, capability-probe]`: the packaging command
`python -m build --sdist` is also issued through the same collaborator
before them. -/
theorem until_build_issues_four_commands_when_packaged :
    runArgs (build packagedHost emptyCfg "some-env" (some "build")
        "pipeline.yaml" false false).1 =
      [["python", "-m", "build", "--sdist"],
       ["docker", "build", ".", "--tag", "my_project:1.2-default"],
       ["docker", "run", "my_project:1.2-default", "ploomber", "status",
        "--entry-point", "pipeline.yaml"],
       ["docker", "run", "my_project:1.2-default", "python", "-c",
        testCmd "pipeline.yaml"]] ∧
    (runArgs (build packagedHost emptyCfg "some-env" (some "build")
        "pipeline.yaml" false false).1).length = 4 := by decide

/-- C3 amended: with `until="build"` and `skip_tests=False`, a `build`
that reaches its first iteration issues exactly the three docker
commands `[docker build, status-check run, capability-probe run]`
(preceded by the packaging command `python -m build --sdist` exactly
when `setup.py` is present), then raises the `CommanderStop` halt signal
with no tag or push command ever issued. -/
theorem until_build_halts_after_docker_trio (h : Host) (cfg : Cfg)
    (env entry task lock : String) (ig : Bool)
    (rest : List (String × String))
    (hdf : h.dockerfileExists = true)
    (hrep : cfg.repository ≠ some "your-repository/name")
    (hlock : h.lockFilesOk = true)
    (hne : (get_dependencies h).2 = (task, lock) :: rest)
    (hset : h.setupPyExists = true →
      ((get_dependencies h).1.any fun tp => tp.1 ≠ "default") = false) :
    (build h cfg env (some "build") entry false ig).2 =
      Outcome.stop buildStopMsg ∧
    runArgs (build h cfg env (some "build") entry false ig).1 =
      (if h.setupPyExists then [["python", "-m", "build", "--sdist"]]
       else []) ++
      [buildCmd h task, statusCmd h task entry, probeCmd h task entry] ∧
    hasTagOrPush (build h cfg env (some "build") entry false ig).1 =
      false := by
  rw [build_eq_loop h cfg env entry (some "build") false ig hdf hrep hlock,
    hne]
  rw [buildLoop_cons_halt (buildStep_build_halt hset)]
  refine ⟨rfl, ?_, ?_⟩
  · by_cases hs : h.setupPyExists = true
    · rw [buildStep_pkg hs (hset hs), buildStepRest_events]
      simp [runArgs, runArgOf, cpLockEvs, hs]
    · have hs' : h.setupPyExists = false := by simpa using hs
      rw [buildStep_nonpkg hs', buildStepRest_events]
      simp [runArgs, runArgOf, cpLockEvs, hs']
  · by_cases hs : h.setupPyExists = true
    · rw [buildStep_pkg hs (hset hs), buildStepRest_events]
      simp [hasTagOrPush, isTagOrPush, cpLockEvs, buildCmd, statusCmd,
        probeCmd]
    · have hs' : h.setupPyExists = false := by simpa using hs
      rw [buildStep_nonpkg hs', buildStepRest_events]
      simp [hasTagOrPush, isTagOrPush, cpLockEvs, buildCmd, statusCmd,
        probeCmd]

/-- C3 amended witness: the non-package sample project with a
repository configured, `until="build"` and `skip_tests=False` stops
with the build message after issuing exactly the docker trio and no
tag/push. -/
theorem until_build_halts_after_docker_trio_witness :
    (build sampleHost repoCfg "some-env" (some "build") "pipeline.yaml"
        false false).2 = Outcome.stop buildStopMsg ∧
    runArgs (build sampleHost repoCfg "some-env" (some "build")
        "pipeline.yaml" false false).1 =
      [buildCmd sampleHost "default",
       statusCmd sampleHost "default" "pipeline.yaml",
       probeCmd sampleHost "default" "pipeline.yaml"] ∧
    hasTagOrPush (build sampleHost repoCfg "some-env" (some "build")
        "pipeline.yaml" false false).1 = false := by
  have hw := until_build_halts_after_docker_trio sampleHost repoCfg
    "some-env" "pipeline.yaml" "default" "requirements.lock.txt" false []
    rfl (by decide) rfl (by decide) (fun hcontra => by cases hcontra)
  refine ⟨hw.1, ?_, hw.2.2⟩
  have := hw.2.1
  simpa using this

/-- C1 counterexample: a packaged project carrying a second, non-default
dependency group makes `build` raise `NotImplementedError` — not the
`ConfigurationError` the claim states. -/
theorem multi_lock_with_setup_py_is_not_configuration_error :
    (build multiLockHost emptyCfg "some-env" none "pipeline.yaml"
        false false).2 =
      Outcome.error (BuildErr.notImplementedError multiLockMsg) ∧
    isConfigurationError (build multiLockHost emptyCfg "some-env" none
        "pipeline.yaml" false false).2 = false := by decide

/-- C1 amended: with `setup.py` present, if any dependency group's task
pattern differs from `default`, `build` fails with
`NotImplementedError` (the multiple-lock-files message) before issuing
any external command — in particular before packaging a source
distribution; with exactly one group of pattern `default`, packaging
succeeds: the sdist build command is issued. -/
theorem setup_py_multi_lock_raises_not_implemented (h : Host) (cfg : Cfg)
    (env entry : String) (u : Option String) (skip ig : Bool)
    (hdf : h.dockerfileExists = true)
    (hrep : cfg.repository ≠ some "your-repository/name")
    (hlock : h.lockFilesOk = true)
    (hs : h.setupPyExists = true) :
    ((((get_dependencies h).1.any fun tp => tp.1 ≠ "default") = true) →
      (build h cfg env u entry skip ig).2 =
        Outcome.error (BuildErr.notImplementedError multiLockMsg) ∧
      runArgs (build h cfg env u entry skip ig).1 = []) ∧
    (∀ d : DepPaths, (get_dependencies h).1 = [("default", d)] →
      ["python", "-m", "build", "--sdist"] ∈
        runArgs (build h cfg env u entry skip ig).1) := by
  constructor
  · intro hx
    rw [build_eq_loop h cfg env entry u skip ig hdf hrep hlock]
    rcases hdf' : (get_dependencies h).1 with _ | ⟨⟨t0, d0⟩, tl⟩
    · rw [hdf'] at hx
      simp at hx
    · have hlp : (get_dependencies h).2 =
          (t0, d0.lock) :: tl.map fun tp => (tp.1, tp.2.lock) := by
        rw [get_dependencies_snd, hdf']
        rfl
      have hx2 : (((t0, d0) :: tl).any fun tp => tp.1 ≠ "default") =
          true := by
        rw [← hdf']
        exact hx
      rw [hlp]
      have hstep : (buildStep h cfg env u entry skip ig ((t0, d0) :: tl)
          ((t0, d0.lock) :: tl.map fun tp => (tp.1, tp.2.lock)) t0
          d0.lock).2 =
          StepRes.err (BuildErr.notImplementedError multiLockMsg) := by
        rw [buildStep_multi_err hs hx2]
      rw [buildLoop_cons_err hstep]
      rw [buildStep_multi_err hs hx2]
      exact ⟨rfl, runArgs_cpLockEvs h d0.lock⟩
  · intro d hdf'
    rw [build_eq_loop h cfg env entry u skip ig hdf hrep hlock]
    have hlp : (get_dependencies h).2 = [("default", d.lock)] := by
      rw [get_dependencies_snd, hdf']
      rfl
    have hx : ((get_dependencies h).1.any fun tp => tp.1 ≠ "default") =
        false := by
      rw [hdf']
      simp
    rw [hlp]
    refine mem_runArgs (mem_buildLoop_head ?_ [] [])
    rw [buildStep_pkg hs hx]
    exact mem_buildStepRest_evs1 (by simp)

/-- C1 amended witness: the two-group packaged host fails with
`NotImplementedError` and an empty command trace, while the single
default-group packaged host issues the sdist packaging command. -/
theorem setup_py_multi_lock_raises_not_implemented_witness :
    ((build multiLockHost emptyCfg "env-two" none "pipeline.yaml"
        false false).2 =
      Outcome.error (BuildErr.notImplementedError multiLockMsg) ∧
     runArgs (build multiLockHost emptyCfg "env-two" none "pipeline.yaml"
        false false).1 = []) ∧
    ["python", "-m", "build", "--sdist"] ∈
      runArgs (build packagedHost emptyCfg "env-two" none "pipeline.yaml"
        false false).1 :=
  ⟨(setup_py_multi_lock_raises_not_implemented multiLockHost emptyCfg
      "env-two" "pipeline.yaml" none false false rfl (by decide) rfl
      rfl).1 (by decide),
   (setup_py_multi_lock_raises_not_implemented packagedHost emptyCfg
      "env-two" "pipeline.yaml" none false false rfl (by decide) rfl
      rfl).2 (DepPaths.mk "requirements.txt" "requirements.lock.txt")
     (by decide)⟩

end SoopervisorDocker
